import Mathlib

/-!
Verification development for the QuickJS JNI bridge
(src/app/src/main/cpp/quickjs_integration.cpp).

The bridge wires an external, unmodified JavaScript engine (QuickJS) into an
Android host.  The engine itself (JS_Eval, JS_ReadObject, js_std_await, ...)
is not part of this repository, so it is embedded abstractly: `Lib Val Ctx`
packages the engine entry points the bridge calls, as pure functions over an
opaque value type `Val` and a context-contents type `Ctx`.  The bridge logic
itself (lifecycle management, guard checks, message construction) is
translated from the C++ source line by line over that interface.

Native pointers are modelled as `Option Nat` handles (none = nullptr), and
the contents of each live JSContext are kept in a heap indexed by handle, so
that mutation of script-visible state is separate from the identity of the
session's handles.  Resource release order is recorded as an explicit event
trace.
-/

namespace QJSBridge

/-- Interface to the external QuickJS library: the engine entry points used by
quickjs_integration.cpp, over an opaque JS value type `Val` and a
context-contents type `Ctx`.  The bridge code is defined for every
interpretation of this interface; concrete demo interpretations are given
below for evaluating the bridge on explicit inputs. -/
structure Lib (Val Ctx : Type) where
  /-- JS_IsException: whether a value is the exception marker. -/
  isException : Val → Bool
  /-- JS_GetException: take the pending exception out of the context. -/
  getException : Ctx → Ctx × Val
  /-- JS_Eval with JS_EVAL_TYPE_GLOBAL: run source text in the context. -/
  evalGlobal : Ctx → String → Ctx × Val
  /-- JS_Eval with JS_EVAL_FLAG_COMPILE_ONLY: parse and compile, no run. -/
  evalCompileOnly : Ctx → String → Ctx × Val
  /-- JS_ToCString: string conversion, none when the conversion fails. -/
  toCString : Ctx → Val → Option String
  /-- JS_GetPropertyStr: read a named property of a value. -/
  getProp : Ctx → Val → String → Val
  /-- js_std_await: drive pending jobs until the value settles. -/
  stdAwait : Ctx → Val → Ctx × Val
  /-- JS_WriteObject with JS_WRITE_OBJ_BYTECODE: serialize, none on failure. -/
  writeObject : Ctx → Val → Option (List Nat)
  /-- JS_ReadObject with JS_READ_OBJ_BYTECODE: deserialize bytes. -/
  readObject : Ctx → List Nat → Ctx × Val
  /-- JS_EvalFunction: execute a compiled function object. -/
  evalFunction : Ctx → Val → Ctx × Val
  /-- Contents of a context fresh out of JS_NewContext followed by
  js_std_add_helpers, addConsoleSupport, addTimerPolyfills, addHttpPolyfills. -/
  freshCtx : Ctx

/-- State of the QuickJSEngine C++ object: the runtime pointer, the context
pointer and the `initialized` flag are its three members; `heap` carries the
script-visible contents of each allocated context handle. -/
structure EngineState (Ctx : Type) where
  runtime : Option Nat
  context : Option Nat
  initialized : Bool
  heap : Nat → Ctx

/-- Overwrite the contents of one context handle, leaving the lifecycle
fields untouched (a JS_Eval mutates through the context pointer; it never
reseats the pointer itself). -/
def setHeap {Ctx : Type} (s : EngineState Ctx) (h : Nat) (c : Ctx) : EngineState Ctx :=
  { s with heap := fun k => if k = h then c else s.heap k }

/-- QuickJSEngine::isInitialized (lines 560-562): initialized, runtime and
context must all be set. -/
def isInitializedB {Ctx : Type} (s : EngineState Ctx) : Bool :=
  s.initialized && s.runtime.isSome && s.context.isSome

/-- Resource events emitted by reset and cleanup, used to state release
ordering. -/
inductive Event where
  | freeContext : Nat → Event
  | freeRuntime : Nat → Event
  | newContext : Nat → Event
  deriving DecidableEq

def Event.isFreeContext : Event → Bool
  | Event.freeContext _ => true
  | _ => false

def Event.isFreeRuntime : Event → Bool
  | Event.freeRuntime _ => true
  | _ => false

def Event.isNewContext : Event → Bool
  | Event.newContext _ => true
  | _ => false

/-- Every event of `l` satisfying `p` sits at a strictly smaller index than
every event satisfying `q`. -/
def eventsOrdered (p q : Event → Bool) (l : List Event) : Prop :=
  ∀ i j, i < l.length → j < l.length →
    p (l.getD i (Event.freeContext 0)) = true →
    q (l.getD j (Event.freeContext 0)) = true → i < j

/-- QuickJSEngine::executeScript (lines 399-510).  Guard on
`!initialized || !context`; JS_Eval; on exception build the
"JavaScript Error: " message (direct JS_ToCString, then name/message
properties, then the generic text); otherwise js_std_await; on rejection
build the "Promise Rejection: " message the same way; otherwise
JS_ToCString the settled value, defaulting to "undefined". -/
def QuickJSEngine.executeScript {Val Ctx : Type} (L : Lib Val Ctx)
    (s : EngineState Ctx) (script : String) : EngineState Ctx × String :=
  match s.context, s.initialized with
  | some h, true =>
    let c0 := s.heap h
    let er := L.evalGlobal c0 script
    if L.isException er.2 then
      let gx := L.getException er.1
      let msg :=
        match L.toCString gx.1 gx.2 with
        | some es => "JavaScript Error: " ++ es
        | none =>
          let nameVal := L.getProp gx.1 gx.2 "name"
          let messageVal := L.getProp gx.1 gx.2 "message"
          match L.toCString gx.1 nameVal, L.toCString gx.1 messageVal with
          | some n, some m => "JavaScript Error: " ++ n ++ ": " ++ m
          | some n, none => "JavaScript Error: " ++ n
          | none, some m => "JavaScript Error: " ++ m
          | none, none =>
            "JavaScript Error: " ++
              "Unknown error (exception object could not be converted to string)"
      (setHeap s h gx.1, msg)
    else
      let ar := L.stdAwait er.1 er.2
      if L.isException ar.2 then
        let gx := L.getException ar.1
        let msg :=
          match L.toCString gx.1 gx.2 with
          | some es => "Promise Rejection: " ++ es
          | none =>
            let nameVal := L.getProp gx.1 gx.2 "name"
            let messageVal := L.getProp gx.1 gx.2 "message"
            match L.toCString gx.1 nameVal, L.toCString gx.1 messageVal with
            | some n, some m => "Promise Rejection: " ++ n ++ ": " ++ m
            | some n, none => "Promise Rejection: " ++ n
            | none, some m => "Promise Rejection: " ++ m
            | none, none =>
              "Promise Rejection: " ++
                "Unknown error (promise rejection could not be converted to string)"
        (setHeap s h gx.1, msg)
      else
        match L.toCString ar.1 ar.2 with
        | some rs => (setHeap s h ar.1, rs)
        | none => (setHeap s h ar.1, "undefined")
  | _, _ => (s, "Error: QuickJS not initialized")

/-- QuickJSEngine::resetContext (lines 512-541).  Fails when the runtime is
absent; otherwise frees the current context (event recorded), then attempts
JS_NewContext (outcome supplied by the `alloc` oracle); on allocation failure
clears `initialized` and fails; on success installs the helpers and polyfills
into the fresh context. -/
def QuickJSEngine.resetContext {Val Ctx : Type} (L : Lib Val Ctx)
    (alloc : Option Nat) (s : EngineState Ctx) :
    (EngineState Ctx × Bool) × List Event :=
  match s.runtime with
  | none => ((s, false), [])
  | some _ =>
    let freeEv : List Event :=
      match s.context with
      | some h => [Event.freeContext h]
      | none => []
    let s1 : EngineState Ctx := { s with context := none }
    match alloc with
    | none => (({ s1 with initialized := false }, false), freeEv)
    | some h2 =>
      (({ s1 with
            context := some h2,
            heap := fun k => if k = h2 then L.freshCtx else s1.heap k }, true),
        freeEv ++ [Event.newContext h2])

/-- QuickJSEngine::cleanup (lines 543-558): free the context if present, then
the runtime if present, then clear the `initialized` flag. -/
def QuickJSEngine.cleanup {Ctx : Type} (s : EngineState Ctx) :
    EngineState Ctx × List Event :=
  let p1 : EngineState Ctx × List Event :=
    match s.context with
    | some h => ({ s with context := none }, [Event.freeContext h])
    | none => (s, [])
  let p2 : EngineState Ctx × List Event :=
    match p1.1.runtime with
    | some r => ({ p1.1 with runtime := none }, [Event.freeRuntime r])
    | none => (p1.1, [])
  ({ p2.1 with initialized := false }, p1.2 ++ p2.2)

/-- QuickJSEngine::initialize (lines 368-397), named initEngine here.
JS_NewRuntime and JS_NewContext outcomes are supplied by the two `alloc`
oracles; on context-allocation failure the runtime is freed again and the
member set back to null, exactly as in the source. -/
def QuickJSEngine.initEngine {Val Ctx : Type} (L : Lib Val Ctx)
    (allocRt allocCtx : Option Nat) (s : EngineState Ctx) :
    EngineState Ctx × Bool :=
  match allocRt with
  | none => ({ s with runtime := none }, false)
  | some r =>
    match allocCtx with
    | none => ({ s with runtime := none }, false)
    | some h =>
      ({ s with
          runtime := some r,
          context := some h,
          heap := fun k => if k = h then L.freshCtx else s.heap k,
          initialized := true }, true)

/-- A freshly constructed QuickJSEngine object (constructor, line 365):
null runtime, null context, initialized = false. -/
def newEngine {Val Ctx : Type} (L : Lib Val Ctx) : EngineState Ctx :=
  { runtime := none
    context := none
    initialized := false
    heap := fun _ => L.freshCtx }

/-- Java_com_quickjs_android_QuickJSBridge_executeScript (lines 594-605):
null-engine guard, then delegation to QuickJSEngine::executeScript. -/
def jniExecuteScript {Val Ctx : Type} (L : Lib Val Ctx)
    (g : Option (EngineState Ctx)) (script : String) :
    Option (EngineState Ctx) × String :=
  match g with
  | none => (none, "Error: QuickJS not initialized")
  | some s =>
    let r := QuickJSEngine.executeScript L s script
    (some r.1, r.2)

/-- Java_com_quickjs_android_QuickJSBridge_compileScript (lines 632-697).
`script = none` models GetStringUTFChars failing, `allocArrayOk` models
NewByteArray succeeding.  On a parse error the engine message is fetched only
for logging and `nullptr` (none) is returned to the caller. -/
def jniCompileScript {Val Ctx : Type} (L : Lib Val Ctx)
    (g : Option (EngineState Ctx)) (script : Option String)
    (allocArrayOk : Bool) : Option (EngineState Ctx) × Option (List Nat) :=
  match g with
  | none => (none, none)
  | some s =>
    if isInitializedB s then
      match script with
      | none => (some s, none)
      | some src =>
        match s.context with
        | none => (some s, none)
        | some h =>
          let c0 := s.heap h
          let cr := L.evalCompileOnly c0 src
          if L.isException cr.2 then
            let gx := L.getException cr.1
            (some (setHeap s h gx.1), none)
          else
            match L.writeObject cr.1 cr.2 with
            | none => (some (setHeap s h cr.1), none)
            | some bc =>
              if allocArrayOk then (some (setHeap s h cr.1), some bc)
              else (some (setHeap s h cr.1), none)
    else (some s, none)

/-- Java_com_quickjs_android_QuickJSBridge_executeBytecode (lines 700-810).
Guards in source order: engine ready, non-null bytes, non-empty bytes,
pinning the array (`pin`), context available; then JS_ReadObject,
JS_EvalFunction, js_std_await, and stringification of the settled value. -/
def jniExecuteBytecode {Val Ctx : Type} (L : Lib Val Ctx)
    (g : Option (EngineState Ctx)) (bytecode : Option (List Nat))
    (pin : Bool) : Option (EngineState Ctx) × String :=
  match g with
  | none => (none, "Error: QuickJS not initialized")
  | some s =>
    if isInitializedB s then
      match bytecode with
      | none => (some s, "Error: Null bytecode")
      | some bs =>
        if bs.length = 0 then (some s, "Error: Empty bytecode")
        else if pin then
          match s.context with
          | none => (some s, "Error: Failed to get QuickJS context")
          | some h =>
            let c0 := s.heap h
            let rr := L.readObject c0 bs
            if L.isException rr.2 then
              let gx := L.getException rr.1
              let msg :=
                match L.toCString gx.1 gx.2 with
                | some es => "Error: Bytecode deserialization failed" ++ ": " ++ es
                | none => "Error: Bytecode deserialization failed"
              (some (setHeap s h gx.1), msg)
            else
              let fr := L.evalFunction rr.1 rr.2
              if L.isException fr.2 then
                let gx := L.getException fr.1
                let msg :=
                  match L.toCString gx.1 gx.2 with
                  | some es => "Error: Bytecode execution failed" ++ ": " ++ es
                  | none => "Error: Bytecode execution failed"
                (some (setHeap s h gx.1), msg)
              else
                let ar := L.stdAwait fr.1 fr.2
                if L.isException ar.2 then
                  let gx := L.getException ar.1
                  let msg :=
                    match L.toCString gx.1 gx.2 with
                    | some es => "Promise Rejection: " ++ es
                    | none => "Promise Rejection: " ++ "Unknown error"
                  (some (setHeap s h gx.1), msg)
                else
                  match L.toCString ar.1 ar.2 with
                  | some rs => (some (setHeap s h ar.1), rs)
                  | none => (some (setHeap s h ar.1), "undefined")
        else (some s, "Error: Failed to get bytecode data")
    else (some s, "Error: QuickJS not initialized")

/-- Java_com_quickjs_android_QuickJSBridge_cleanupQuickJS (lines 608-617):
if the global engine exists, clean it up and delete it. -/
def jniCleanup {Ctx : Type} (g : Option (EngineState Ctx)) :
    Option (EngineState Ctx) × List Event :=
  match g with
  | none => (none, [])
  | some s => (none, (QuickJSEngine.cleanup s).2)

/-- Java_com_quickjs_android_QuickJSBridge_resetContext (lines 626-629). -/
def jniResetContext {Val Ctx : Type} (L : Lib Val Ctx) (alloc : Option Nat)
    (g : Option (EngineState Ctx)) :
    (Option (EngineState Ctx) × Bool) × List Event :=
  match g with
  | none => ((none, false), [])
  | some s =>
    let r := QuickJSEngine.resetContext L alloc s
    ((some r.1.1, r.1.2), r.2)

/-- Java_com_quickjs_android_QuickJSBridge_initializeQuickJS (lines 574-591):
allocate the engine object if absent, then run its initialization. -/
def jniInitQuickJS {Val Ctx : Type} (L : Lib Val Ctx)
    (allocRt allocCtx : Option Nat) (g : Option (EngineState Ctx)) :
    Option (EngineState Ctx) × Bool :=
  let s0 := match g with
    | none => newEngine L
    | some s => s
  let r := QuickJSEngine.initEngine L allocRt allocCtx s0
  (some r.1, r.2)

/-- Java_com_quickjs_android_QuickJSBridge_isInitialized (lines 620-623). -/
def isReadyJNI {Ctx : Type} (g : Option (EngineState Ctx)) : Bool :=
  match g with
  | none => false
  | some s => isInitializedB s

/-- One host-visible call into the bridge (everything the JNI surface
exposes), used to reason about call sequences. -/
inductive Op where
  | execScript (script : String)
  | execBytecode (bc : Option (List Nat)) (pin : Bool)
  | compile (src : Option String) (aOk : Bool)
  | reset (alloc : Option Nat)
  | teardown
  | initOp (aRt aCtx : Option Nat)

def Op.isInit : Op → Bool
  | Op.initOp _ _ => true
  | _ => false

/-- Effect of one JNI call on the global engine object. -/
def stepOp {Val Ctx : Type} (L : Lib Val Ctx) (g : Option (EngineState Ctx)) :
    Op → Option (EngineState Ctx)
  | Op.execScript script => (jniExecuteScript L g script).1
  | Op.execBytecode bc pin => (jniExecuteBytecode L g bc pin).1
  | Op.compile src aOk => (jniCompileScript L g src aOk).1
  | Op.reset alloc => (jniResetContext L alloc g).1.1
  | Op.teardown => (jniCleanup g).1
  | Op.initOp aRt aCtx => (jniInitQuickJS L aRt aCtx g).1

/-- Run a sequence of JNI calls from a starting global state. -/
def runOps {Val Ctx : Type} (L : Lib Val Ctx) (g : Option (EngineState Ctx)) :
    List Op → Option (EngineState Ctx)
  | [] => g
  | op :: rest => runOps L (stepOp L g op) rest

/-!
Shallow embedding of the setTimeout family installed by addTimerPolyfills
(lines 161-201).  The polyfill text is JavaScript data inside the C++ file;
a callback is modelled as a state transformer that may throw.
-/

/-- Polyfill setTimeout (lines 167-176): run the callback at once inside a
try block that rethrows, then hand back the dummy timer id 1. -/
def setTimeoutPoly {σ ε : Type} (callback : σ → Except ε σ) (delay : Nat)
    (s : σ) : Except ε (σ × Nat) :=
  match callback s with
  | Except.error e => Except.error e
  | Except.ok s1 => Except.ok (s1, 1)

/-- Polyfill clearTimeout (lines 178-180): a no-op. -/
def clearTimeoutPoly {σ : Type} (id : Nat) (s : σ) : σ := s

/-- Polyfill setInterval (lines 182-184): delegates to setTimeout once. -/
def setIntervalPoly {σ ε : Type} (callback : σ → Except ε σ) (delay : Nat)
    (s : σ) : Except ε (σ × Nat) :=
  setTimeoutPoly callback delay s

/-- Polyfill clearInterval (lines 186-188): delegates to clearTimeout. -/
def clearIntervalPoly {σ : Type} (id : Nat) (s : σ) : σ :=
  clearTimeoutPoly id s

/-!
A concrete interpretation of the engine interface, used to evaluate the
bridge functions on explicit inputs.  It satisfies the serialize/deserialize
round-trip law by construction: `writeObject` of a compiled script gives its
index, `readObject` of that index gives the compiled object back, and
`evalFunction` of the compiled object behaves exactly as `evalGlobal` of the
script it came from.
-/

/-- Demo JS values: the exception marker, undefined, a compiled function
object tagged with the index of its script, a string, promises, and an error
object whose direct string conversion fails but which may carry name and
message properties. -/
inductive TVal where
  | excMarker : TVal
  | undef : TVal
  | fnObj : Nat → TVal
  | strVal : String → TVal
  | promiseResolved : TVal → TVal
  | promiseRejected : TVal → TVal
  | errObj : Option String → Option String → TVal
  deriving DecidableEq

/-- Demo context contents: the pending exception and a counter standing for
script-visible global state. -/
structure TCtx where
  exc : TVal
  globals : Nat
  deriving DecidableEq

/-- Index the demo scripts the engine interpretation understands; any other
text is a parse error. -/
def scriptIdx : String → Option Nat
  | "1+2" => some 0
  | "throw new Error(boom)" => some 1
  | "throw nonStringifiableError" => some 2
  | "Promise.reject(nonStringifiableError)" => some 3
  | "g = g + 1" => some 4
  | _ => none

/-- Behaviour of the demo script with the given index. -/
def runScript (c : TCtx) : Nat → TCtx × TVal
  | 0 => (c, TVal.strVal "3")
  | 1 => ({ c with exc := TVal.strVal "Error: boom" }, TVal.excMarker)
  | 2 => ({ c with exc := TVal.errObj (some "TypeError") (some "boom") },
      TVal.excMarker)
  | 3 => (c, TVal.promiseRejected (TVal.errObj (some "TypeError") (some "boom")))
  | 4 => ({ c with globals := c.globals + 1 }, TVal.strVal "1")
  | _ => (c, TVal.undef)

/-- Optional string to demo value: a present field is a string, an absent one
is undefined. -/
def optStr : Option String → TVal
  | some s => TVal.strVal s
  | none => TVal.undef

/-- Concrete engine interpretation, parameterized by the message the parser
produces for unparseable text (so that two interpretations differing only in
that message can be compared). -/
def demoLibMsg (parseErrMsg : String) : Lib TVal TCtx where
  isException v :=
    match v with
    | TVal.excMarker => true
    | _ => false
  getException c := ({ c with exc := TVal.undef }, c.exc)
  evalGlobal c src :=
    match scriptIdx src with
    | some k => runScript c k
    | none => ({ c with exc := TVal.strVal parseErrMsg }, TVal.excMarker)
  evalCompileOnly c src :=
    match scriptIdx src with
    | some k => (c, TVal.fnObj k)
    | none => ({ c with exc := TVal.strVal parseErrMsg }, TVal.excMarker)
  toCString _ v :=
    match v with
    | TVal.strVal s => some s
    | TVal.fnObj _ => some "function"
    | _ => none
  getProp _ v p :=
    match v with
    | TVal.errObj n m =>
      if p = "name" then optStr n
      else if p = "message" then optStr m
      else TVal.undef
    | _ => TVal.undef
  stdAwait c v :=
    match v with
    | TVal.promiseResolved w => (c, w)
    | TVal.promiseRejected e => ({ c with exc := e }, TVal.excMarker)
    | w => (c, w)
  writeObject _ v :=
    match v with
    | TVal.fnObj k => some [k]
    | _ => none
  readObject c bs :=
    match bs with
    | [k] =>
      if k ≤ 9 then (c, TVal.fnObj k)
      else ({ c with exc := TVal.strVal "SyntaxError: invalid bytecode" },
        TVal.excMarker)
    | _ => ({ c with exc := TVal.strVal "SyntaxError: invalid bytecode" },
        TVal.excMarker)
  evalFunction c v :=
    match v with
    | TVal.fnObj k => runScript c k
    | _ => ({ c with exc := TVal.strVal "TypeError: not a function" },
        TVal.excMarker)
  freshCtx := { exc := TVal.undef, globals := 0 }

/-- Modelled from the spec: the error-description preference order of
section 4.2 (Evaluator run): prefer a direct string conversion of the
exception value; if that yields nothing, read the name and message fields and
concatenate as name: message, or use whichever of the two exists alone; if
neither is available use the generic unknown-error text.  Stated separately
from the bridge code so the code's inlined message construction can be
compared against it. -/
def specErrorDescription {Val Ctx : Type} (L : Lib Val Ctx) (c : Ctx)
    (exc : Val) (unknownMsg : String) : String :=
  match L.toCString c exc with
  | some direct => direct
  | none =>
    match L.toCString c (L.getProp c exc "name"),
        L.toCString c (L.getProp c exc "message") with
    | some n, some m => n ++ ": " ++ m
    | some n, none => n
    | none, some m => m
    | none, none => unknownMsg

/-- Replace exactly the three engine entry points that run script code
(JS_Eval in run mode, JS_EvalFunction, js_std_await), leaving the rest of the
interface unchanged.  A bridge function whose behaviour is invariant under
this replacement provably never executes script code. -/
def withExec {Val Ctx : Type} (L : Lib Val Ctx)
    (eg : Ctx → String → Ctx × Val) (ef : Ctx → Val → Ctx × Val)
    (aw : Ctx → Val → Ctx × Val) : Lib Val Ctx :=
  { L with evalGlobal := eg, evalFunction := ef, stdAwait := aw }

/-- The default demo interpretation. -/
def demoL : Lib TVal TCtx := demoLibMsg "SyntaxError: unexpected token"

/-- A ready demo session: runtime handle 0, context handle 1, initialized. -/
def demoState : EngineState TCtx :=
  { runtime := some 0
    context := some 1
    initialized := true
    heap := fun _ => demoL.freshCtx }

/-- A demo session whose initialized flag has been cleared (the degraded
state left behind by a failed context reset). -/
def degradedState : EngineState TCtx :=
  { demoState with initialized := false }

/-!
Library lemmas about the bridge, shared by the claim theorems below.
-/

/-- Guard of executeScript: with the initialized flag down or the context
pointer null, the method returns the not-ready error and touches nothing. -/
theorem executeScript_of_uninit {Val Ctx : Type} (L : Lib Val Ctx)
    (s : EngineState Ctx) (script : String)
    (h : s.initialized = false ∨ s.context = none) :
    QuickJSEngine.executeScript L s script = (s, "Error: QuickJS not initialized") := by
  cases hc : s.context with
  | none =>
    cases hi : s.initialized <;> simp [QuickJSEngine.executeScript, hc, hi]
  | some k =>
    cases hi : s.initialized with
    | false => simp [QuickJSEngine.executeScript, hc, hi]
    | true =>
      rcases h with h1 | h1
      · rw [hi] at h1; cases h1
      · rw [hc] at h1; cases h1

/-- Guard of the bytecode entry point: a session that is not ready is
rejected before anything else happens. -/
theorem jniExecuteBytecode_of_not_ready {Val Ctx : Type} (L : Lib Val Ctx)
    (s : EngineState Ctx) (bc : Option (List Nat)) (pin : Bool)
    (h : isInitializedB s = false) :
    jniExecuteBytecode L (some s) bc pin = (some s, "Error: QuickJS not initialized") := by
  simp [jniExecuteBytecode, h]

/-- Guard of the compile entry point: a session that is not ready yields the
null result before anything else happens. -/
theorem jniCompileScript_of_not_ready {Val Ctx : Type} (L : Lib Val Ctx)
    (s : EngineState Ctx) (src : Option String) (aOk : Bool)
    (h : isInitializedB s = false) :
    jniCompileScript L (some s) src aOk = (some s, none) := by
  simp [jniCompileScript, h]

/-!
Theorems settling the claims.
-/

/-- C2: for every script, if the session is not ready — the global engine was
never created, or the engine's initialized flag or context is missing — the
evaluation returns the EngineNotReady outcome "Error: QuickJS not
initialized" with the state untouched, and performs no engine call: the
result is the same for every interpretation `L` of the engine library, so no
engine entry point can have been consulted. -/
theorem c2_not_ready_guard :
    (∀ (Val Ctx : Type) (L : Lib Val Ctx) (script : String),
      jniExecuteScript L none script = (none, "Error: QuickJS not initialized")) ∧
    (∀ (Val Ctx : Type) (L : Lib Val Ctx) (s : EngineState Ctx) (script : String),
      s.initialized = false ∨ s.context = none →
      QuickJSEngine.executeScript L s script = (s, "Error: QuickJS not initialized")) := by
  constructor
  · intro Val Ctx L script
    rfl
  · intro Val Ctx L s script h
    exact executeScript_of_uninit L s script h

/-- Witness for C2 at concrete inputs: a null global engine, and a session
whose initialized flag is down. -/
theorem c2_not_ready_witness :
    jniExecuteScript demoL none "1+2" = (none, "Error: QuickJS not initialized") ∧
    QuickJSEngine.executeScript demoL degradedState "1+2" =
      (degradedState, "Error: QuickJS not initialized") :=
  ⟨c2_not_ready_guard.1 TVal TCtx demoL "1+2",
    c2_not_ready_guard.2 TVal TCtx demoL degradedState "1+2" (Or.inl rfl)⟩

/-- C3: whenever source evaluation raises, executeScript's failure message is
the "JavaScript Error: " prefix followed by exactly the spec's preference
order applied to the pending exception: direct string conversion first, then
the name and message properties joined as name: message (or whichever of the
two converts), and finally the generic unknown-error text. -/
theorem c3_error_message_preference :
    ∀ (Val Ctx : Type) (L : Lib Val Ctx) (s : EngineState Ctx) (script : String)
      (h : Nat), s.context = some h → s.initialized = true →
      L.isException (L.evalGlobal (s.heap h) script).2 = true →
      (QuickJSEngine.executeScript L s script).2 =
        "JavaScript Error: " ++
          specErrorDescription L (L.getException (L.evalGlobal (s.heap h) script).1).1
            (L.getException (L.evalGlobal (s.heap h) script).1).2
            "Unknown error (exception object could not be converted to string)" := by
  intro Val Ctx L s script h hc hi hexc
  simp only [QuickJSEngine.executeScript, hc, hi, hexc, if_true, specErrorDescription]
  cases hs0 : L.toCString (L.getException (L.evalGlobal (s.heap h) script).1).1
      (L.getException (L.evalGlobal (s.heap h) script).1).2 with
  | some es => simp [hs0]
  | none =>
    cases hn : L.toCString (L.getException (L.evalGlobal (s.heap h) script).1).1
        (L.getProp (L.getException (L.evalGlobal (s.heap h) script).1).1
          (L.getException (L.evalGlobal (s.heap h) script).1).2 "name") with
    | some n =>
      cases hm : L.toCString (L.getException (L.evalGlobal (s.heap h) script).1).1
          (L.getProp (L.getException (L.evalGlobal (s.heap h) script).1).1
            (L.getException (L.evalGlobal (s.heap h) script).1).2 "message") with
      | some m => simp [hs0, hn, hm, String.append_assoc]
      | none => simp [hs0, hn, hm]
    | none =>
      cases hm : L.toCString (L.getException (L.evalGlobal (s.heap h) script).1).1
          (L.getProp (L.getException (L.evalGlobal (s.heap h) script).1).1
            (L.getException (L.evalGlobal (s.heap h) script).1).2 "message") with
      | some m => simp [hs0, hn, hm]
      | none => simp [hs0, hn, hm]

/-- Witness for C3: a script that throws an exception whose direct string
conversion succeeds. -/
theorem c3_error_message_witness :
    (QuickJSEngine.executeScript demoL demoState "throw new Error(boom)").2 =
      "JavaScript Error: " ++
        specErrorDescription demoL
          (demoL.getException
            (demoL.evalGlobal (demoState.heap 1) "throw new Error(boom)").1).1
          (demoL.getException
            (demoL.evalGlobal (demoState.heap 1) "throw new Error(boom)").1).2
          "Unknown error (exception object could not be converted to string)" :=
  c3_error_message_preference TVal TCtx demoL demoState "throw new Error(boom)" 1
    rfl rfl (by decide)

/-- C9: the setTimeout polyfill runs its callback synchronously during the
call itself — the callback's effect (or its exception) is already part of
setTimeout's own result — for every requested delay equally, and hands back
the timer identifier 1; setInterval is exactly one such immediate
invocation, and a thrown callback propagates out of the call. -/
theorem c9_timer_polyfill_immediate :
    (∀ (σ ε : Type) (cb : σ → Except ε σ) (delay : Nat) (s s1 : σ),
      cb s = Except.ok s1 → setTimeoutPoly cb delay s = Except.ok (s1, 1)) ∧
    (∀ (σ ε : Type) (cb : σ → Except ε σ) (delay : Nat) (s : σ) (e : ε),
      cb s = Except.error e → setTimeoutPoly cb delay s = Except.error e) ∧
    (∀ (σ ε : Type) (cb : σ → Except ε σ) (d1 d2 : Nat) (s : σ),
      setTimeoutPoly cb d1 s = setTimeoutPoly cb d2 s) ∧
    (∀ (σ ε : Type) (cb : σ → Except ε σ) (delay : Nat) (s : σ),
      setIntervalPoly cb delay s = setTimeoutPoly cb delay s) := by
  refine ⟨?_, ?_, ?_, ?_⟩
  · intro σ ε cb delay s s1 hcb
    simp [setTimeoutPoly, hcb]
  · intro σ ε cb delay s e hcb
    simp [setTimeoutPoly, hcb]
  · intro σ ε cb d1 d2 s
    rfl
  · intro σ ε cb delay s
    rfl

/-- Witness for C9: a concrete counting callback, invoked during the call
regardless of a 1000-unit delay, and one that throws. -/
theorem c9_timer_witness :
    setTimeoutPoly (fun n : Nat => (Except.ok (n + 1) : Except Unit Nat)) 1000 0 =
      Except.ok (1, 1) ∧
    setTimeoutPoly (fun _ : Nat => Except.error ()) 1000 0 = Except.error () ∧
    setTimeoutPoly (fun n : Nat => (Except.ok (n + 1) : Except Unit Nat)) 1000 0 =
      setTimeoutPoly (fun n : Nat => (Except.ok (n + 1) : Except Unit Nat)) 0 0 ∧
    setIntervalPoly (fun n : Nat => (Except.ok (n + 1) : Except Unit Nat)) 1000 0 =
      setTimeoutPoly (fun n : Nat => (Except.ok (n + 1) : Except Unit Nat)) 1000 0 :=
  ⟨c9_timer_polyfill_immediate.1 Nat Unit _ 1000 0 1 rfl,
    c9_timer_polyfill_immediate.2.1 Nat Unit _ 1000 0 () rfl,
    c9_timer_polyfill_immediate.2.2.1 Nat Unit _ 1000 0 0,
    c9_timer_polyfill_immediate.2.2.2 Nat Unit _ 1000 0⟩

/-- C5: bytecode execution on a ready session rejects a null byte array with
"Error: Null bytecode" and an empty one with "Error: Empty bytecode", in both
cases leaving the session untouched and — because the conclusion holds for
every interpretation `L` of the engine library — without ever invoking the
engine's deserializer; and when the bytes are present but the deserializer
raises on them, the outcome is the deserialization-failure message carrying
the engine's description of the problem.  In the total-function embedding
every input yields a result string, never an abnormal termination. -/
theorem c5_bytecode_input_guards :
    (∀ (Val Ctx : Type) (L : Lib Val Ctx) (s : EngineState Ctx) (pin : Bool),
      isInitializedB s = true →
      jniExecuteBytecode L (some s) none pin = (some s, "Error: Null bytecode")) ∧
    (∀ (Val Ctx : Type) (L : Lib Val Ctx) (s : EngineState Ctx) (pin : Bool),
      isInitializedB s = true →
      jniExecuteBytecode L (some s) (some []) pin = (some s, "Error: Empty bytecode")) ∧
    (∀ (Val Ctx : Type) (L : Lib Val Ctx) (s : EngineState Ctx) (bs : List Nat)
      (h : Nat) (rr gx : Ctx × Val),
      isInitializedB s = true → s.context = some h → bs ≠ [] →
      L.readObject (s.heap h) bs = rr → L.isException rr.2 = true →
      L.getException rr.1 = gx →
      (jniExecuteBytecode L (some s) (some bs) true).2 =
        (match L.toCString gx.1 gx.2 with
          | some es => "Error: Bytecode deserialization failed" ++ ": " ++ es
          | none => "Error: Bytecode deserialization failed")) := by
  refine ⟨?_, ?_, ?_⟩
  · intro Val Ctx L s pin hready
    simp [jniExecuteBytecode, hready]
  · intro Val Ctx L s pin hready
    simp [jniExecuteBytecode, hready]
  · intro Val Ctx L s bs h rr gx hready hc hne hrr hexc hgx
    simp [jniExecuteBytecode, hready, hc, List.length_eq_zero, hne, hrr, hexc, hgx]

/-- Witness for C5: null bytes, empty bytes, and the unrecognized byte
sequence [99] against the demo engine. -/
theorem c5_bytecode_guards_witness :
    jniExecuteBytecode demoL (some demoState) none true =
      (some demoState, "Error: Null bytecode") ∧
    jniExecuteBytecode demoL (some demoState) (some []) true =
      (some demoState, "Error: Empty bytecode") ∧
    (jniExecuteBytecode demoL (some demoState) (some [99]) true).2 =
      (match demoL.toCString (demoL.getException (demoL.readObject (demoState.heap 1) [99]).1).1
          (demoL.getException (demoL.readObject (demoState.heap 1) [99]).1).2 with
        | some es => "Error: Bytecode deserialization failed" ++ ": " ++ es
        | none => "Error: Bytecode deserialization failed") :=
  ⟨c5_bytecode_input_guards.1 TVal TCtx demoL demoState true (by decide),
    c5_bytecode_input_guards.2.1 TVal TCtx demoL demoState true (by decide),
    c5_bytecode_input_guards.2.2 TVal TCtx demoL demoState [99] 1
      (demoL.readObject (demoState.heap 1) [99])
      (demoL.getException (demoL.readObject (demoState.heap 1) [99]).1)
      (by decide) rfl (by decide) rfl (by decide) rfl⟩

/-- C6 (amended): compileScript never executes the program — its result is
invariant under arbitrary replacement of the three engine entry points that
run script code — and on a parse failure it returns the null result to the
caller (the engine's message is only logged inside the bridge, not carried
out); when parsing and serialization succeed it returns the engine's
serialized byte sequence. -/
theorem c6_compile_failure_amended :
    (∀ (Val Ctx : Type) (L : Lib Val Ctx)
      (eg : Ctx → String → Ctx × Val) (ef aw : Ctx → Val → Ctx × Val)
      (g : Option (EngineState Ctx)) (src : Option String) (aOk : Bool),
      jniCompileScript (withExec L eg ef aw) g src aOk =
        jniCompileScript L g src aOk) ∧
    (∀ (Val Ctx : Type) (L : Lib Val Ctx) (s : EngineState Ctx) (src : String)
      (h : Nat) (aOk : Bool),
      isInitializedB s = true → s.context = some h →
      L.isException (L.evalCompileOnly (s.heap h) src).2 = true →
      (jniCompileScript L (some s) (some src) aOk).2 = none) ∧
    (∀ (Val Ctx : Type) (L : Lib Val Ctx) (s : EngineState Ctx) (src : String)
      (h : Nat) (cr : Ctx × Val) (bc : List Nat),
      isInitializedB s = true → s.context = some h →
      L.evalCompileOnly (s.heap h) src = cr → L.isException cr.2 = false →
      L.writeObject cr.1 cr.2 = some bc →
      (jniCompileScript L (some s) (some src) true).2 = some bc) := by
  refine ⟨?_, ?_, ?_⟩
  · intro Val Ctx L eg ef aw g src aOk
    rfl
  · intro Val Ctx L s src h aOk hready hc hexc
    simp [jniCompileScript, hready, hc, hexc]
  · intro Val Ctx L s src h cr bc hready hc hcr hexc hwr
    simp [jniCompileScript, hready, hc, hcr, hexc, hwr]

/-- Counterexample for C6 as stated: parsing of the text "][" fails, yet the
caller-visible outcome of compileScript is the bare null result, and it is
the same null result under a second engine interpretation that produces a
completely different parse-error message — so the outcome cannot carry the
engine's error message to the caller. -/
theorem c6_compile_message_counterexample :
    (demoLibMsg "SyntaxError: unexpected token").isException
      ((demoLibMsg "SyntaxError: unexpected token").evalCompileOnly
        (demoState.heap 1) "][").2 = true ∧
    (jniCompileScript (demoLibMsg "SyntaxError: unexpected token")
      (some demoState) (some "][") true).2 = none ∧
    (jniCompileScript (demoLibMsg "SyntaxError: engines disagree here")
      (some demoState) (some "][") true).2 = none := by
  refine ⟨by decide, by decide, by decide⟩

/-- Witness for C6: the exec-replacement invariance at a concrete stubbed
interpretation, a failing parse returning null, and a successful compilation
of "1+2" returning its serialized form. -/
theorem c6_compile_witness :
    jniCompileScript
        (withExec demoL (fun c _ => (c, TVal.undef)) (fun c _ => (c, TVal.undef))
          (fun c _ => (c, TVal.undef)))
        (some demoState) (some "1+2") true =
      jniCompileScript demoL (some demoState) (some "1+2") true ∧
    (jniCompileScript demoL (some demoState) (some "][") true).2 = none ∧
    (jniCompileScript demoL (some demoState) (some "1+2") true).2 = some [0] :=
  ⟨c6_compile_failure_amended.1 TVal TCtx demoL _ _ _ (some demoState) (some "1+2") true,
    c6_compile_failure_amended.2.1 TVal TCtx demoL demoState "][" 1 true
      (by decide) rfl (by decide),
    c6_compile_failure_amended.2.2 TVal TCtx demoL demoState "1+2" 1
      (demoL.evalCompileOnly (demoState.heap 1) "1+2") [0]
      (by decide) rfl rfl (by decide) (by decide)⟩

/-- Shape of executeScript's state effect: either the guard fired and the
state is untouched, or only the contents of the current context handle were
replaced. -/
theorem executeScript_shape {Val Ctx : Type} (L : Lib Val Ctx)
    (s : EngineState Ctx) (script : String) :
    (QuickJSEngine.executeScript L s script).1 = s ∨
    ∃ h c, s.context = some h ∧
      (QuickJSEngine.executeScript L s script).1 = setHeap s h c := by
  cases hc : s.context with
  | none =>
    cases hi : s.initialized <;> simp [QuickJSEngine.executeScript, hc, hi]
  | some h =>
    cases hi : s.initialized with
    | false => simp [QuickJSEngine.executeScript, hc, hi]
    | true =>
      right
      cases hex : L.isException (L.evalGlobal (s.heap h) script).2 with
      | true =>
        exact ⟨h, (L.getException (L.evalGlobal (s.heap h) script).1).1, rfl,
          by simp [QuickJSEngine.executeScript, hc, hi, hex]⟩
      | false =>
        cases hex2 : L.isException
            (L.stdAwait (L.evalGlobal (s.heap h) script).1
              (L.evalGlobal (s.heap h) script).2).2 with
        | true =>
          exact ⟨h, (L.getException
              (L.stdAwait (L.evalGlobal (s.heap h) script).1
                (L.evalGlobal (s.heap h) script).2).1).1, rfl,
            by simp [QuickJSEngine.executeScript, hc, hi, hex, hex2]⟩
        | false =>
          refine ⟨h, (L.stdAwait (L.evalGlobal (s.heap h) script).1
              (L.evalGlobal (s.heap h) script).2).1, rfl, ?_⟩
          cases htc : L.toCString
              (L.stdAwait (L.evalGlobal (s.heap h) script).1
                (L.evalGlobal (s.heap h) script).2).1
              (L.stdAwait (L.evalGlobal (s.heap h) script).1
                (L.evalGlobal (s.heap h) script).2).2 with
          | some rs => simp [QuickJSEngine.executeScript, hc, hi, hex, hex2, htc]
          | none => simp [QuickJSEngine.executeScript, hc, hi, hex, hex2, htc]

/-- Shape of executeBytecode's state effect on an existing engine: either
untouched, or only the contents of the current context handle replaced. -/
theorem executeBytecode_shape {Val Ctx : Type} (L : Lib Val Ctx)
    (s : EngineState Ctx) (bc : Option (List Nat)) (pin : Bool) :
    (jniExecuteBytecode L (some s) bc pin).1 = some s ∨
    ∃ h c, s.context = some h ∧
      (jniExecuteBytecode L (some s) bc pin).1 = some (setHeap s h c) := by
  cases hready : isInitializedB s with
  | false => simp [jniExecuteBytecode, hready]
  | true =>
    cases bc with
    | none => simp [jniExecuteBytecode, hready]
    | some bs =>
      by_cases hlen : bs.length = 0
      · simp [jniExecuteBytecode, hready, hlen]
      · cases hpin : pin with
        | false => simp [jniExecuteBytecode, hready, hlen]
        | true =>
          cases hc : s.context with
          | none => simp [jniExecuteBytecode, hready, hlen, hc]
          | some h =>
            cases hex : L.isException (L.readObject (s.heap h) bs).2 with
            | true =>
              exact Or.inr ⟨h, (L.getException (L.readObject (s.heap h) bs).1).1, rfl,
                by simp [jniExecuteBytecode, hready, hlen, hc, hex]⟩
            | false =>
              cases hex2 : L.isException
                  (L.evalFunction (L.readObject (s.heap h) bs).1
                    (L.readObject (s.heap h) bs).2).2 with
              | true =>
                exact Or.inr ⟨h, (L.getException
                    (L.evalFunction (L.readObject (s.heap h) bs).1
                      (L.readObject (s.heap h) bs).2).1).1, rfl,
                  by simp [jniExecuteBytecode, hready, hlen, hc, hex, hex2]⟩
              | false =>
                cases hex3 : L.isException
                    (L.stdAwait (L.evalFunction (L.readObject (s.heap h) bs).1
                        (L.readObject (s.heap h) bs).2).1
                      (L.evalFunction (L.readObject (s.heap h) bs).1
                        (L.readObject (s.heap h) bs).2).2).2 with
                | true =>
                  exact Or.inr ⟨h, (L.getException
                      (L.stdAwait (L.evalFunction (L.readObject (s.heap h) bs).1
                          (L.readObject (s.heap h) bs).2).1
                        (L.evalFunction (L.readObject (s.heap h) bs).1
                          (L.readObject (s.heap h) bs).2).2).1).1, rfl,
                    by simp [jniExecuteBytecode, hready, hlen, hc, hex, hex2, hex3]⟩
                | false =>
                  refine Or.inr ⟨h, (L.stdAwait
                      (L.evalFunction (L.readObject (s.heap h) bs).1
                        (L.readObject (s.heap h) bs).2).1
                      (L.evalFunction (L.readObject (s.heap h) bs).1
                        (L.readObject (s.heap h) bs).2).2).1, rfl, ?_⟩
                  cases htc : L.toCString (L.stdAwait
                      (L.evalFunction (L.readObject (s.heap h) bs).1
                        (L.readObject (s.heap h) bs).2).1
                      (L.evalFunction (L.readObject (s.heap h) bs).1
                        (L.readObject (s.heap h) bs).2).2).1
                      (L.stdAwait (L.evalFunction (L.readObject (s.heap h) bs).1
                          (L.readObject (s.heap h) bs).2).1
                        (L.evalFunction (L.readObject (s.heap h) bs).1
                          (L.readObject (s.heap h) bs).2).2).2 with
                  | some rs =>
                    simp [jniExecuteBytecode, hready, hlen, hc, hex, hex2, hex3, htc]
                  | none =>
                    simp [jniExecuteBytecode, hready, hlen, hc, hex, hex2, hex3, htc]

/-- C10: neither executeScript nor executeBytecode changes the session's
lifecycle state — the runtime handle, the context handle and the initialized
flag are identical after the call — and the only mutation either can make is
to the contents of the current context: the contents of every other context
handle are untouched. -/
theorem c10_execution_frame :
    (∀ (Val Ctx : Type) (L : Lib Val Ctx) (s : EngineState Ctx) (script : String),
      ((QuickJSEngine.executeScript L s script).1.runtime = s.runtime ∧
        (QuickJSEngine.executeScript L s script).1.context = s.context ∧
        (QuickJSEngine.executeScript L s script).1.initialized = s.initialized) ∧
      (∀ k, s.context ≠ some k →
        (QuickJSEngine.executeScript L s script).1.heap k = s.heap k)) ∧
    (∀ (Val Ctx : Type) (L : Lib Val Ctx) (s : EngineState Ctx)
      (bc : Option (List Nat)) (pin : Bool),
      ∃ s2, (jniExecuteBytecode L (some s) bc pin).1 = some s2 ∧
        s2.runtime = s.runtime ∧ s2.context = s.context ∧
        s2.initialized = s.initialized ∧
        ∀ k, s.context ≠ some k → s2.heap k = s.heap k) := by
  constructor
  · intro Val Ctx L s script
    rcases executeScript_shape L s script with hsh | ⟨h, c, hc, hsh⟩
    · rw [hsh]
      exact ⟨⟨rfl, rfl, rfl⟩, fun k _ => rfl⟩
    · rw [hsh]
      refine ⟨⟨rfl, rfl, rfl⟩, ?_⟩
      intro k hk
      have hkh : ¬k = h := fun e => hk (by rw [e]; exact hc)
      simp [setHeap, hkh]
  · intro Val Ctx L s bc pin
    rcases executeBytecode_shape L s bc pin with hsh | ⟨h, c, hc, hsh⟩
    · exact ⟨s, hsh, rfl, rfl, rfl, fun k _ => rfl⟩
    · refine ⟨setHeap s h c, hsh, rfl, rfl, rfl, ?_⟩
      intro k hk
      have hkh : ¬k = h := fun e => hk (by rw [e]; exact hc)
      simp [setHeap, hkh]

/-- Witness for C10: running the global-mutating demo script and a bytecode
unit leaves the demo session's lifecycle fields as they were, and the
contents of a foreign context handle are untouched. -/
theorem c10_frame_witness :
    (QuickJSEngine.executeScript demoL demoState "g = g + 1").1.runtime =
      demoState.runtime ∧
    (QuickJSEngine.executeScript demoL demoState "g = g + 1").1.context =
      demoState.context ∧
    (QuickJSEngine.executeScript demoL demoState "g = g + 1").1.initialized =
      demoState.initialized ∧
    (QuickJSEngine.executeScript demoL demoState "g = g + 1").1.heap 0 =
      demoState.heap 0 :=
  ⟨(c10_execution_frame.1 TVal TCtx demoL demoState "g = g + 1").1.1,
    (c10_execution_frame.1 TVal TCtx demoL demoState "g = g + 1").1.2.1,
    (c10_execution_frame.1 TVal TCtx demoL demoState "g = g + 1").1.2.2,
    (c10_execution_frame.1 TVal TCtx demoL demoState "g = g + 1").2 0 (by decide)⟩

/-- C8: teardown frees the context strictly before the runtime (every
context-release event precedes every runtime-release event in the trace); it
is callable from any session state — a second engine-level call leaves the
state fixed and releases nothing, a fresh never-initialized engine is cleaned
without releasing anything, and a second JNI-level call on the already
deleted engine is a no-op — and afterwards isInitialized reports false. -/
theorem c8_teardown_contract :
    (∀ (Ctx : Type) (s : EngineState Ctx),
      eventsOrdered Event.isFreeContext Event.isFreeRuntime
        (QuickJSEngine.cleanup s).2) ∧
    (∀ (Ctx : Type) (s : EngineState Ctx),
      QuickJSEngine.cleanup (QuickJSEngine.cleanup s).1 =
        ((QuickJSEngine.cleanup s).1, [])) ∧
    (∀ (Val Ctx : Type) (L : Lib Val Ctx),
      QuickJSEngine.cleanup (newEngine L) = (newEngine L, [])) ∧
    (∀ (Ctx : Type) (s : EngineState Ctx),
      isInitializedB (QuickJSEngine.cleanup s).1 = false) ∧
    (∀ (Ctx : Type) (g : Option (EngineState Ctx)),
      jniCleanup (jniCleanup g).1 = (none, [])) := by
  refine ⟨?_, ?_, ?_, ?_, ?_⟩
  · intro Ctx s
    cases hcx : s.context with
    | none =>
      cases hrt : s.runtime with
      | none =>
        simp only [QuickJSEngine.cleanup, hcx, hrt, eventsOrdered]
        intro i j hi
        simp at hi
      | some r =>
        simp only [QuickJSEngine.cleanup, hcx, hrt, eventsOrdered]
        intro i j hi hj hp hq
        simp at hi
        subst hi
        simp [Event.isFreeContext] at hp
    | some k =>
      cases hrt : s.runtime with
      | none =>
        simp only [QuickJSEngine.cleanup, hcx, hrt, eventsOrdered]
        intro i j hi hj hp hq
        simp at hj
        subst hj
        simp [Event.isFreeRuntime] at hq
      | some r =>
        simp only [QuickJSEngine.cleanup, hcx, hrt, eventsOrdered]
        intro i j hi hj hp hq
        simp at hi hj
        interval_cases i <;> interval_cases j <;>
          simp_all [Event.isFreeContext, Event.isFreeRuntime]
  · intro Ctx s
    cases hcx : s.context <;> cases hrt : s.runtime <;>
      simp [QuickJSEngine.cleanup, hcx, hrt]
  · intro Val Ctx L
    rfl
  · intro Ctx s
    cases hcx : s.context <;> cases hrt : s.runtime <;>
      simp [QuickJSEngine.cleanup, isInitializedB, hcx, hrt]
  · intro Ctx g
    cases g <;> rfl

/-- Witness for C8 on the demo session: the trace frees context 1 before
runtime 0, a second cleanup is inert, and readiness is down afterwards. -/
theorem c8_teardown_witness :
    eventsOrdered Event.isFreeContext Event.isFreeRuntime
      (QuickJSEngine.cleanup demoState).2 ∧
    QuickJSEngine.cleanup (QuickJSEngine.cleanup demoState).1 =
      ((QuickJSEngine.cleanup demoState).1, []) ∧
    QuickJSEngine.cleanup (newEngine demoL) = (newEngine demoL, []) ∧
    isInitializedB (QuickJSEngine.cleanup demoState).1 = false ∧
    jniCleanup (jniCleanup (some demoState)).1 = (none, []) :=
  ⟨c8_teardown_contract.1 TCtx demoState,
    c8_teardown_contract.2.1 TCtx demoState,
    c8_teardown_contract.2.2.1 TVal TCtx demoL,
    c8_teardown_contract.2.2.2.1 TCtx demoState,
    c8_teardown_contract.2.2.2.2 TCtx (some demoState)⟩

/-- A single bridge call other than initializeQuickJS cannot raise the
initialized flag: if it is down before the call, it is down after. -/
theorem stepOp_preserves_uninit {Val Ctx : Type} (L : Lib Val Ctx)
    (g : Option (EngineState Ctx)) (op : Op) (hop : Op.isInit op = false)
    (hg : ∀ s0, g = some s0 → s0.initialized = false) :
    ∀ s2, stepOp L g op = some s2 → s2.initialized = false := by
  intro s2 h2
  cases op with
  | execScript script =>
    cases g with
    | none => simp [stepOp, jniExecuteScript] at h2
    | some s =>
      have hs := hg s rfl
      simp only [stepOp, jniExecuteScript] at h2
      rw [executeScript_of_uninit L s script (Or.inl hs)] at h2
      simp at h2
      rw [← h2]
      exact hs
  | execBytecode bc pin =>
    cases g with
    | none => simp [stepOp, jniExecuteBytecode] at h2
    | some s =>
      have hs := hg s rfl
      have hnr : isInitializedB s = false := by simp [isInitializedB, hs]
      simp only [stepOp] at h2
      rw [jniExecuteBytecode_of_not_ready L s bc pin hnr] at h2
      simp at h2
      rw [← h2]
      exact hs
  | compile src aOk =>
    cases g with
    | none => simp [stepOp, jniCompileScript] at h2
    | some s =>
      have hs := hg s rfl
      have hnr : isInitializedB s = false := by simp [isInitializedB, hs]
      simp only [stepOp] at h2
      rw [jniCompileScript_of_not_ready L s src aOk hnr] at h2
      simp at h2
      rw [← h2]
      exact hs
  | reset alloc =>
    cases g with
    | none => simp [stepOp, jniResetContext] at h2
    | some s =>
      have hs := hg s rfl
      simp only [stepOp, jniResetContext] at h2
      cases hrt : s.runtime with
      | none =>
        simp [QuickJSEngine.resetContext, hrt] at h2
        rw [← h2]
        exact hs
      | some r =>
        cases alloc with
        | none =>
          simp [QuickJSEngine.resetContext, hrt] at h2
          rw [← h2]
        | some h3 =>
          simp [QuickJSEngine.resetContext, hrt] at h2
          rw [← h2]
          exact hs
  | teardown =>
    cases g with
    | none => simp [stepOp, jniCleanup] at h2
    | some s => simp [stepOp, jniCleanup] at h2
  | initOp aRt aCtx => simp [Op.isInit] at hop

/-- Along any sequence of bridge calls that contains no initializeQuickJS,
the initialized flag stays down. -/
theorem runOps_preserves_uninit {Val Ctx : Type} (L : Lib Val Ctx) :
    ∀ (ops : List Op) (g : Option (EngineState Ctx)),
      (∀ s0, g = some s0 → s0.initialized = false) →
      (∀ op ∈ ops, Op.isInit op = false) →
      ∀ s2, runOps L g ops = some s2 → s2.initialized = false := by
  intro ops
  induction ops with
  | nil =>
    intro g hg _ s2 h2
    exact hg s2 h2
  | cons op rest ih =>
    intro g hg hops s2 h2
    simp only [runOps] at h2
    refine ih (stepOp L g op) ?_ ?_ s2 h2
    · exact stepOp_preserves_uninit L g op (hops op (by simp)) hg
    · intro o ho
      exact hops o (List.mem_cons_of_mem op ho)

/-- C7: resetContext fails (returns false, with no effect and no resource
events) whenever the runtime does not exist; when it runs, every
context-release event in its trace precedes every context-creation event, so
the old context is destroyed strictly before the fresh one appears; and on
context-creation failure it reports false and clears the initialized flag, a
degraded state in which isInitialized stays false across any sequence of
bridge calls that does not include initializeQuickJS. -/
theorem c7_reset_contract :
    (∀ (Val Ctx : Type) (L : Lib Val Ctx) (alloc : Option Nat) (s : EngineState Ctx),
      s.runtime = none →
      QuickJSEngine.resetContext L alloc s = ((s, false), [])) ∧
    (∀ (Val Ctx : Type) (L : Lib Val Ctx) (alloc : Option Nat) (s : EngineState Ctx),
      eventsOrdered Event.isFreeContext Event.isNewContext
        (QuickJSEngine.resetContext L alloc s).2) ∧
    (∀ (Val Ctx : Type) (L : Lib Val Ctx) (s : EngineState Ctx) (r : Nat),
      s.runtime = some r →
      (QuickJSEngine.resetContext L none s).1.2 = false ∧
      (QuickJSEngine.resetContext L none s).1.1.initialized = false ∧
      isInitializedB (QuickJSEngine.resetContext L none s).1.1 = false) ∧
    (∀ (Val Ctx : Type) (L : Lib Val Ctx) (g : Option (EngineState Ctx)) (ops : List Op),
      (∀ s0, g = some s0 → s0.initialized = false) →
      (∀ op ∈ ops, Op.isInit op = false) →
      isReadyJNI (runOps L g ops) = false) := by
  refine ⟨?_, ?_, ?_, ?_⟩
  · intro Val Ctx L alloc s hrt
    simp [QuickJSEngine.resetContext, hrt]
  · intro Val Ctx L alloc s
    cases hrt : s.runtime with
    | none =>
      simp only [QuickJSEngine.resetContext, hrt, eventsOrdered]
      intro i j hi
      simp at hi
    | some r =>
      cases hcx : s.context with
      | none =>
        cases alloc with
        | none =>
          simp only [QuickJSEngine.resetContext, hrt, hcx, eventsOrdered]
          intro i j hi
          simp at hi
        | some h2 =>
          simp only [QuickJSEngine.resetContext, hrt, hcx, eventsOrdered]
          intro i j hi hj hp hq
          simp at hi
          subst hi
          simp [Event.isFreeContext] at hp
      | some k =>
        cases alloc with
        | none =>
          simp only [QuickJSEngine.resetContext, hrt, hcx, eventsOrdered]
          intro i j hi hj hp hq
          simp at hj
          subst hj
          simp [Event.isNewContext] at hq
        | some h2 =>
          simp only [QuickJSEngine.resetContext, hrt, hcx, eventsOrdered]
          intro i j hi hj hp hq
          simp at hi hj
          interval_cases i <;> interval_cases j <;>
            simp_all [Event.isFreeContext, Event.isNewContext]
  · intro Val Ctx L s r hrt
    refine ⟨?_, ?_, ?_⟩ <;> simp [QuickJSEngine.resetContext, hrt, isInitializedB]
  · intro Val Ctx L g ops hg hops
    cases hres : runOps L g ops with
    | none => simp [isReadyJNI]
    | some s2 =>
      have hun := runOps_preserves_uninit L ops g hg hops s2 hres
      simp [isReadyJNI, isInitializedB, hun]

/-- Witness for C7: reset on a runtime-less fresh engine fails inertly; the
demo session's reset trace frees context 1 before creating context 2; a
failed allocation degrades the session; and the degraded session stays
not-ready across an execute, a reset and a compile. -/
theorem c7_reset_witness :
    QuickJSEngine.resetContext demoL (some 2) (newEngine demoL) =
      ((newEngine demoL, false), []) ∧
    eventsOrdered Event.isFreeContext Event.isNewContext
      (QuickJSEngine.resetContext demoL (some 2) demoState).2 ∧
    (QuickJSEngine.resetContext demoL none demoState).1.2 = false ∧
    isInitializedB (QuickJSEngine.resetContext demoL none demoState).1.1 = false ∧
    isReadyJNI (runOps demoL (some degradedState)
      [Op.execScript "1+2", Op.reset (some 2), Op.compile (some "1+2") true]) = false :=
  ⟨c7_reset_contract.1 TVal TCtx demoL (some 2) (newEngine demoL) rfl,
    c7_reset_contract.2.1 TVal TCtx demoL (some 2) demoState,
    (c7_reset_contract.2.2.1 TVal TCtx demoL demoState 0 rfl).1,
    (c7_reset_contract.2.2.1 TVal TCtx demoL demoState 0 rfl).2.2,
    c7_reset_contract.2.2.2 TVal TCtx demoL (some degradedState)
      [Op.execScript "1+2", Op.reset (some 2), Op.compile (some "1+2") true]
      (fun s0 h => by injection h with h3; rw [← h3]; rfl)
      (by decide)⟩

/-- C4 (amended): in both evaluators the immediate result is passed through
js_std_await before anything is made of it, so the outcome is always computed
from the settled value, never from the pending immediate one — a fulfilled
value is stringified from the awaited result, and a rejection is reported as
a "Promise Rejection: " failure.  The message construction differs between
the two paths: executeScript applies the full name/message extraction
strategy of thrown exceptions, while executeBytecode applies only the direct
string conversion with the generic "Unknown error" fallback. -/
theorem c4_await_and_rejection_amended :
    (∀ (Val Ctx : Type) (L : Lib Val Ctx) (s : EngineState Ctx) (script : String)
      (h : Nat) (er ar gx : Ctx × Val),
      s.context = some h → s.initialized = true →
      L.evalGlobal (s.heap h) script = er → L.isException er.2 = false →
      L.stdAwait er.1 er.2 = ar → L.isException ar.2 = true →
      L.getException ar.1 = gx →
      (QuickJSEngine.executeScript L s script).2 =
        "Promise Rejection: " ++
          specErrorDescription L gx.1 gx.2
            "Unknown error (promise rejection could not be converted to string)") ∧
    (∀ (Val Ctx : Type) (L : Lib Val Ctx) (s : EngineState Ctx) (script : String)
      (h : Nat) (er ar : Ctx × Val),
      s.context = some h → s.initialized = true →
      L.evalGlobal (s.heap h) script = er → L.isException er.2 = false →
      L.stdAwait er.1 er.2 = ar → L.isException ar.2 = false →
      (QuickJSEngine.executeScript L s script).2 =
        (L.toCString ar.1 ar.2).getD "undefined") ∧
    (∀ (Val Ctx : Type) (L : Lib Val Ctx) (s : EngineState Ctx) (bs : List Nat)
      (h : Nat) (rr fr ar gx : Ctx × Val),
      isInitializedB s = true → s.context = some h → bs ≠ [] →
      L.readObject (s.heap h) bs = rr → L.isException rr.2 = false →
      L.evalFunction rr.1 rr.2 = fr → L.isException fr.2 = false →
      L.stdAwait fr.1 fr.2 = ar → L.isException ar.2 = true →
      L.getException ar.1 = gx →
      (jniExecuteBytecode L (some s) (some bs) true).2 =
        "Promise Rejection: " ++ ((L.toCString gx.1 gx.2).getD "Unknown error")) := by
  refine ⟨?_, ?_, ?_⟩
  · intro Val Ctx L s script h er ar gx hc hi her hexe har hexa hgx
    simp only [QuickJSEngine.executeScript, hc, hi, her, hexe, har, hexa, hgx,
      Bool.false_eq_true, if_false, if_true, specErrorDescription]
    cases hs0 : L.toCString gx.1 gx.2 with
    | some es => simp [hs0]
    | none =>
      cases hn : L.toCString gx.1 (L.getProp gx.1 gx.2 "name") with
      | some n =>
        cases hm : L.toCString gx.1 (L.getProp gx.1 gx.2 "message") with
        | some m => simp [hs0, hn, hm, String.append_assoc]
        | none => simp [hs0, hn, hm]
      | none =>
        cases hm : L.toCString gx.1 (L.getProp gx.1 gx.2 "message") with
        | some m => simp [hs0, hn, hm]
        | none => simp [hs0, hn, hm]
  · intro Val Ctx L s script h er ar hc hi her hexe har hexa
    simp only [QuickJSEngine.executeScript, hc, hi, her, hexe, har, hexa,
      Bool.false_eq_true, if_false]
    cases htc : L.toCString ar.1 ar.2 with
    | some rs => simp [htc]
    | none => simp [htc]
  · intro Val Ctx L s bs h rr fr ar gx hready hc hne hrr hexr hfr hexf har hexa hgx
    simp only [jniExecuteBytecode, hready, hc, hrr, hexr, hfr, hexf, har, hexa, hgx,
      List.length_eq_zero, hne, Bool.false_eq_true, if_false, if_true]
    cases hs0 : L.toCString gx.1 gx.2 with
    | some es => simp [jniExecuteBytecode, hready, hc, List.length_eq_zero, hne,
        hrr, hexr, hfr, hexf, har, hexa, hgx, hs0]
    | none => simp [jniExecuteBytecode, hready, hc, List.length_eq_zero, hne,
        hrr, hexr, hfr, hexf, har, hexa, hgx, hs0]

/-- Counterexample for C4 as stated: the demo script that rejects with an
error object whose direct string conversion fails.  Run as source it yields
the name/message form "Promise Rejection: TypeError: boom", but run through
compile and executeBytecode the very same rejection yields "Promise
Rejection: Unknown error" — the bytecode evaluator does not apply the
name/message extraction strategy. -/
theorem c4_rejection_strategy_counterexample :
    (QuickJSEngine.executeScript demoL demoState
      "Promise.reject(nonStringifiableError)").2 =
      "Promise Rejection: TypeError: boom" ∧
    (jniCompileScript demoL (some demoState)
      (some "Promise.reject(nonStringifiableError)") true).2 = some [3] ∧
    (jniExecuteBytecode demoL
      (jniCompileScript demoL (some demoState)
        (some "Promise.reject(nonStringifiableError)") true).1
      (some [3]) true).2 = "Promise Rejection: Unknown error" ∧
    ("Promise Rejection: TypeError: boom" : String) ≠
      "Promise Rejection: Unknown error" := by
  refine ⟨by decide, by decide, by decide, by decide⟩

/-- Witness for C4: the rejecting demo script through both evaluators, and a
fulfilled evaluation stringified from its awaited value. -/
theorem c4_await_witness :
    (QuickJSEngine.executeScript demoL demoState
      "Promise.reject(nonStringifiableError)").2 =
      "Promise Rejection: " ++
        specErrorDescription demoL
          (demoL.getException
            (demoL.stdAwait demoL.freshCtx
              (TVal.promiseRejected (TVal.errObj (some "TypeError") (some "boom")))).1).1
          (demoL.getException
            (demoL.stdAwait demoL.freshCtx
              (TVal.promiseRejected (TVal.errObj (some "TypeError") (some "boom")))).1).2
          "Unknown error (promise rejection could not be converted to string)" ∧
    (QuickJSEngine.executeScript demoL demoState "1+2").2 =
      (demoL.toCString demoL.freshCtx (TVal.strVal "3")).getD "undefined" ∧
    (jniExecuteBytecode demoL (some demoState) (some [3]) true).2 =
      "Promise Rejection: " ++
        ((demoL.toCString
          (demoL.getException
            (demoL.stdAwait demoL.freshCtx
              (TVal.promiseRejected (TVal.errObj (some "TypeError") (some "boom")))).1).1
          (demoL.getException
            (demoL.stdAwait demoL.freshCtx
              (TVal.promiseRejected (TVal.errObj (some "TypeError") (some "boom")))).1).2).getD
          "Unknown error") :=
  ⟨c4_await_and_rejection_amended.1 TVal TCtx demoL demoState
      "Promise.reject(nonStringifiableError)" 1
      (demoL.freshCtx, TVal.promiseRejected (TVal.errObj (some "TypeError") (some "boom")))
      (demoL.stdAwait demoL.freshCtx
        (TVal.promiseRejected (TVal.errObj (some "TypeError") (some "boom"))))
      (demoL.getException
        (demoL.stdAwait demoL.freshCtx
          (TVal.promiseRejected (TVal.errObj (some "TypeError") (some "boom")))).1)
      rfl rfl (by decide) (by decide) rfl (by decide) rfl,
    c4_await_and_rejection_amended.2.1 TVal TCtx demoL demoState "1+2" 1
      (demoL.freshCtx, TVal.strVal "3") (demoL.freshCtx, TVal.strVal "3")
      rfl rfl (by decide) (by decide) (by decide) (by decide),
    c4_await_and_rejection_amended.2.2 TVal TCtx demoL demoState [3] 1
      (demoL.freshCtx, TVal.fnObj 3)
      (demoL.freshCtx, TVal.promiseRejected (TVal.errObj (some "TypeError") (some "boom")))
      (demoL.stdAwait demoL.freshCtx
        (TVal.promiseRejected (TVal.errObj (some "TypeError") (some "boom"))))
      (demoL.getException
        (demoL.stdAwait demoL.freshCtx
          (TVal.promiseRejected (TVal.errObj (some "TypeError") (some "boom")))).1)
      (by decide) rfl (by decide) (by decide) (by decide) (by decide) (by decide)
      rfl (by decide) rfl⟩

/-- C1 (amended): on a ready session, for a source that compiles, whose
compiled form serializes, and for which the engine obeys the round-trip laws
(deserializing the written bytes gives the compiled object back and running
it behaves as running the source), the compile-then-executeBytecode pipeline
returns the same outcome string as executing the source directly — provided
the evaluation neither throws nor rejects.  The failure paths genuinely
differ in wording (see the counterexample), which is what restricts the
equivalence to successful evaluations. -/
theorem c1_compile_run_roundtrip_amended :
    ∀ (Val Ctx : Type) (L : Lib Val Ctx) (s : EngineState Ctx) (src : String)
      (h : Nat) (fobj : Val) (bc : List Nat),
      isInitializedB s = true → s.context = some h →
      L.evalCompileOnly (s.heap h) src = (s.heap h, fobj) →
      L.isException fobj = false →
      L.writeObject (s.heap h) fobj = some bc →
      bc ≠ [] →
      L.readObject (s.heap h) bc = (s.heap h, fobj) →
      L.evalFunction (s.heap h) fobj = L.evalGlobal (s.heap h) src →
      L.isException (L.evalGlobal (s.heap h) src).2 = false →
      L.isException (L.stdAwait (L.evalGlobal (s.heap h) src).1
        (L.evalGlobal (s.heap h) src).2).2 = false →
      (jniCompileScript L (some s) (some src) true).2 = some bc ∧
      (jniExecuteBytecode L (jniCompileScript L (some s) (some src) true).1
        (some bc) true).2 = (QuickJSEngine.executeScript L s src).2 := by
  intro Val Ctx L s src h fobj bc hready hc hco hexf hwr hne hrd hfn hexe hexa
  have hi : s.initialized = true := by
    have := hready
    simp [isInitializedB, Bool.and_eq_true] at this
    exact this.1.1
  have hcomp : jniCompileScript L (some s) (some src) true =
      (some (setHeap s h (s.heap h)), some bc) := by
    simp [jniCompileScript, hready, hc, hco, hexf, hwr]
  have hready2 : isInitializedB (setHeap s h (s.heap h)) = true := by
    simpa [isInitializedB, setHeap] using hready
  have hheap : (setHeap s h (s.heap h)).heap h = s.heap h := by
    simp [setHeap]
  have hctx2 : (setHeap s h (s.heap h)).context = some h := hc
  constructor
  · rw [hcomp]
  · rw [hcomp]
    simp only [jniExecuteBytecode, hready2, hctx2, hheap, hrd, hexf, hfn, hexe,
      List.length_eq_zero, hne, Bool.false_eq_true, if_false, if_true, hexa]
    simp only [QuickJSEngine.executeScript, hc, hi, hexe, hexa,
      Bool.false_eq_true, if_false]
    cases htc : L.toCString (L.stdAwait (L.evalGlobal (s.heap h) src).1
        (L.evalGlobal (s.heap h) src).2).1
        (L.stdAwait (L.evalGlobal (s.heap h) src).1
          (L.evalGlobal (s.heap h) src).2).2 with
    | some rs => simp [htc]
    | none => simp [htc]

/-- Counterexample for C1 as stated: the throwing demo script compiles
successfully and uses no host bridge, yet the direct run reports
"JavaScript Error: Error: boom" while the compile-then-executeBytecode run of
the same session reports "Error: Bytecode execution failed: Error: boom" —
the two outcomes differ. -/
theorem c1_roundtrip_counterexample :
    (jniCompileScript demoL (some demoState) (some "throw new Error(boom)") true).2 =
      some [1] ∧
    (jniExecuteBytecode demoL
      (jniCompileScript demoL (some demoState) (some "throw new Error(boom)") true).1
      (some [1]) true).2 = "Error: Bytecode execution failed: Error: boom" ∧
    (QuickJSEngine.executeScript demoL demoState "throw new Error(boom)").2 =
      "JavaScript Error: Error: boom" ∧
    ("Error: Bytecode execution failed: Error: boom" : String) ≠
      "JavaScript Error: Error: boom" := by
  refine ⟨by decide, by decide, by decide, by decide⟩

/-- Witness for C1: the demo script "1+2", which compiles to bytecode [0] and
evaluates to "3" along both paths. -/
theorem c1_roundtrip_witness :
    (jniCompileScript demoL (some demoState) (some "1+2") true).2 = some [0] ∧
    (jniExecuteBytecode demoL
      (jniCompileScript demoL (some demoState) (some "1+2") true).1
      (some [0]) true).2 =
      (QuickJSEngine.executeScript demoL demoState "1+2").2 :=
  c1_compile_run_roundtrip_amended TVal TCtx demoL demoState "1+2" 1
    (TVal.fnObj 0) [0] (by decide) rfl (by decide) (by decide) (by decide)
    (by decide) (by decide) (by decide) (by decide) (by decide)

end QJSBridge

